import Mathlib

/-
Shallow embedding of the mood-to-audio-feature resolver of src/spotify.js
(function getRecommendationsByMoodAndAge, lines 99-128, together with the
lookup tables MOOD_FEATURES, AGE_ADJUSTMENTS and MOOD_GENRES, lines 22-46).

Modelling conventions:
- JavaScript numbers are modelled as exact rationals. Every constant in the
  tables is a short decimal literal, and every claim settled here is robust
  to this choice: the facts proved hold for the same structural reasons in
  IEEE double arithmetic (clamping at the exact bounds 0, 1 and 50, and
  differences far larger than rounding error).
- The three tables are plain object literals and therefore inherit from
  Object.prototype. Indexing one with a member key of Object.prototype
  (constructor, toString, __proto__, and the rest of objectPrototypeKeys
  below) returns the inherited function or object, which is truthy, so the
  source fallbacks (x || y) do not engage for those keys. A lookup result
  is accordingly one of three things: the own stored value, an inherited
  prototype member (JsLookup.protoMember), or undefined (none), and the
  fallbacks are Option.getD over that.
- The inherited members are modelled on a fresh process state: Object.keys
  of an inherited member enumerates nothing (their own properties are
  non-enumerable), and hasOwnProperty on an inherited member is false for
  every feature key. A call whose lowercased mood is an inherited member
  key binds that member as its features value, runs the adjustment loop
  against it (only the tempo floor branch of line 112 can fire there,
  writing NaN onto shared state outside the mood table), and then throws
  TypeError at line 123 when it evaluates features.valence.toFixed(2).
  The thrown call is modelled as outcome none with the mood table
  unchanged; the NaN pollution lands on objects outside the modelled
  state, and no theorem below chains a further call behind a thrown one.
- The source aliases the looked-up MOOD_FEATURES entry (line 104 binds the
  table entry itself, not a copy) and mutates it in place in the adjustment
  loop (lines 108-114). The embedding threads the table state explicitly:
  a call takes the current table, and returns it with the final adjusted
  record written back to the slot that was aliased (the happy slot when
  the lookup missed). This is observationally equivalent, because the
  loop-local reference and the table entry are the same object and nothing
  reads the table between the writes.
- The absent age-group argument (JavaScript default parameter value
  "18-25", line 99) is modelled by an Option String argument.
-/

/-- The value produced by indexing one of the table object literals with a
key that is present somewhere on the prototype chain: either the own
stored value of the literal, or a member inherited from Object.prototype
(a truthy function or object that carries none of the feature fields). -/
inductive JsLookup (α : Type) where
  | own (val : α)
  | protoMember
deriving DecidableEq, Repr

/-- The own stored value of a lookup result, if it is one. -/
def JsLookup.ownValue {α : Type} : JsLookup α → Option α
  | .own a => some a
  | .protoMember => none

/-- The audio-feature record stored in MOOD_FEATURES and returned by the
resolver: valence, energy, danceability, acousticness, tempo
(src/spotify.js lines 22-28). Every record of the source owns exactly
these five keys. -/
structure AudioFeatureProfile where
  valence : ℚ
  energy : ℚ
  danceability : ℚ
  acousticness : ℚ
  tempo : ℚ
deriving DecidableEq, Repr

/-- JavaScript String.prototype.toLowerCase (src/spotify.js lines 104 and
117), for the ASCII range: every key it is compared against is plain
ASCII, for which the JavaScript Unicode lowercase mapping and the
per-character ASCII mapping agree. -/
def toLowerCase (s : String) : String := ⟨s.data.map Char.toLower⟩

/-- JavaScript Math.min on ordinary (non-NaN) numbers (line 110). -/
def mathMin (a b : ℚ) : ℚ := if a ≤ b then a else b

/-- JavaScript Math.max on ordinary (non-NaN) numbers (lines 110, 112). -/
def mathMax (a b : ℚ) : ℚ := if a ≤ b then b else a

/-- The own property keys of every audio-feature record in the source:
each MOOD_FEATURES entry is a literal with exactly these five fields, and
the adjustment loop only ever assigns to keys the record already owns, so
the key set never changes. This is what features.hasOwnProperty(key)
tests against on line 109 when features is a real record. -/
def profileKeys : List String :=
  ["valence", "energy", "danceability", "acousticness", "tempo"]

/-- The property keys of Object.prototype, which every plain object
literal inherits. Indexing a table with one of these returns a truthy
function (or, for __proto__, the Object.prototype object itself), so the
source fallbacks never engage for them. The keys containing uppercase
letters are unreachable through the lowercased mood argument but remain
reachable through the age-group argument, which is not lowercased. -/
def objectPrototypeKeys : List String :=
  ["constructor", "hasOwnProperty", "isPrototypeOf", "propertyIsEnumerable",
   "toLocaleString", "toString", "valueOf",
   "__defineGetter__", "__defineSetter__", "__lookupGetter__",
   "__lookupSetter__", "__proto__"]

/-- Dynamic property read features[key] (line 110) on a feature record.
Only ever evaluated on keys in profileKeys; the 0 default is unreachable
junk. -/
def AudioFeatureProfile.get (f : AudioFeatureProfile) (key : String) : ℚ :=
  if key = "valence" then f.valence
  else if key = "energy" then f.energy
  else if key = "danceability" then f.danceability
  else if key = "acousticness" then f.acousticness
  else if key = "tempo" then f.tempo
  else 0

/-- Dynamic property write features[key] = v (line 110) on a feature
record. -/
def AudioFeatureProfile.set (f : AudioFeatureProfile) (key : String) (v : ℚ) :
    AudioFeatureProfile :=
  if key = "valence" then { f with valence := v }
  else if key = "energy" then { f with energy := v }
  else if key = "danceability" then { f with danceability := v }
  else if key = "acousticness" then { f with acousticness := v }
  else if key = "tempo" then { f with tempo := v }
  else f

/-- The MOOD_FEATURES table: one mutable slot per mood key
(src/spotify.js lines 22-28). Modelled as a structure because its own key
set is fixed; only the values of the slots can change (by aliasing, see
the header comment). -/
structure MoodTable where
  happy : AudioFeatureProfile
  energetic : AudioFeatureProfile
  calm : AudioFeatureProfile
  sad : AudioFeatureProfile
  stressed : AudioFeatureProfile
deriving DecidableEq, Repr

/-- Indexing MOOD_FEATURES[key]: an own key yields its record, a member
key of Object.prototype yields the inherited member, anything else is
undefined (none). -/
def MoodTable.lookup (t : MoodTable) (key : String) :
    Option (JsLookup AudioFeatureProfile) :=
  if key = "happy" then some (.own t.happy)
  else if key = "energetic" then some (.own t.energetic)
  else if key = "calm" then some (.own t.calm)
  else if key = "sad" then some (.own t.sad)
  else if key = "stressed" then some (.own t.stressed)
  else if key ∈ objectPrototypeKeys then some .protoMember
  else none

/-- Writing back the adjusted record to the table slot it aliases. -/
def MoodTable.set (t : MoodTable) (key : String) (p : AudioFeatureProfile) : MoodTable :=
  if key = "happy" then { t with happy := p }
  else if key = "energetic" then { t with energetic := p }
  else if key = "calm" then { t with calm := p }
  else if key = "sad" then { t with sad := p }
  else if key = "stressed" then { t with stressed := p }
  else t

/-- MOOD_FEATURES at process start (src/spotify.js lines 22-28). -/
def MOOD_FEATURES : MoodTable where
  happy := { valence := 0.8, energy := 0.75, danceability := 0.85, acousticness := 0.15, tempo := 120 }
  energetic := { valence := 0.85, energy := 0.85, danceability := 0.8, acousticness := 0.1, tempo := 130 }
  calm := { valence := 0.3, energy := 0.2, danceability := 0.3, acousticness := 0.7, tempo := 70 }
  sad := { valence := 0.2, energy := 0.25, danceability := 0.25, acousticness := 0.8, tempo := 60 }
  stressed := { valence := 0.35, energy := 0.3, danceability := 0.4, acousticness := 0.6, tempo := 75 }

/-- AGE_ADJUSTMENTS (src/spotify.js lines 31-37): an own bracket key maps
to its adjustment record, here a key/delta association list in the
insertion order of the object literal, which is the order Object.keys
enumerates on line 108; an Object.prototype member key yields the truthy
inherited member, so the fallback of line 107 does not engage for it; any
other key is undefined and line 107 falls back to the empty record. -/
def AGE_ADJUSTMENTS (ageGroup : String) : Option (JsLookup (List (String × ℚ))) :=
  if ageGroup = "13-17" then some (.own [("danceability", 0.05), ("tempo", 10), ("energy", 0.03)])
  else if ageGroup = "18-25" then some (.own [("danceability", 0.02), ("tempo", 0), ("energy", 0)])
  else if ageGroup = "26-35" then some (.own [("acousticness", 0.03), ("tempo", -5)])
  else if ageGroup = "36-50" then some (.own [("acousticness", 0.05), ("tempo", -10), ("energy", -0.05)])
  else if ageGroup = "50+" then some (.own [("acousticness", 0.08), ("tempo", -15), ("energy", -0.1)])
  else if ageGroup ∈ objectPrototypeKeys then some .protoMember
  else none

/-- MOOD_GENRES (src/spotify.js lines 40-46), with the same three-way
lookup behaviour as the other literals. -/
def MOOD_GENRES (key : String) : Option (JsLookup String) :=
  if key = "happy" then some (.own "pop,indie-pop,electro-pop")
  else if key = "energetic" then some (.own "dance,electronic,hip-hop")
  else if key = "calm" then some (.own "ambient,indie-folk,acoustic")
  else if key = "sad" then some (.own "indie,alternative,folk")
  else if key = "stressed" then some (.own "lo-fi,chill-pop,singer-songwriter")
  else if key ∈ objectPrototypeKeys then some .protoMember
  else none

/-- The own key set of MOOD_FEATURES and MOOD_GENRES. -/
def moodKeys : List String := ["happy", "energetic", "calm", "sad", "stressed"]

/-- The own key set of AGE_ADJUSTMENTS. -/
def ageKeys : List String := ["13-17", "18-25", "26-35", "36-50", "50+"]

/-- Object.keys of the adjustments value on line 108: the insertion-order
own keys of an own record, and nothing for an inherited Object.prototype
member, whose own properties are non-enumerable on a fresh process. -/
def jsKeys : JsLookup (List (String × ℚ)) → List (String × ℚ)
  | .own l => l
  | .protoMember => []

/-- One iteration of the adjustment loop (src/spotify.js lines 108-114)
on a feature record: if the record owns the key, add the delta and clamp
into [0,1] (line 110); otherwise, if the key is tempo, add the delta and
clamp to a floor of 50 (line 112); otherwise do nothing. -/
def applyAdjustment (features : AudioFeatureProfile) (key : String) (delta : ℚ) :
    AudioFeatureProfile :=
  if key ∈ profileKeys then
    features.set key (mathMax 0 (mathMin 1 (features.get key + delta)))
  else if key = "tempo" then
    { features with tempo := mathMax 50 (features.tempo + delta) }
  else features

/-- JavaScript Number.prototype.toFixed(2) on the magnitudes occurring
here: round to two decimal places, ties toward positive infinity
(src/spotify.js lines 123-126). -/
def toFixed2 (q : ℚ) : ℚ := (round (q * 100) : ℤ) / 100

/-- The query parameters built on src/spotify.js lines 120-128 and sent
to the external recommendations endpoint. The seed_genres field carries
the JavaScript value bound to the genres variable; on every path that
reaches this point it is an own string, because the genre and feature
tables share their key sets and a mood resolving to an inherited member
throws before the query is built. -/
structure RecQuery where
  seed_genres : JsLookup String
  limit : ℕ
  target_valence : ℚ
  target_energy : ℚ
  target_danceability : ℚ
  target_acousticness : ℚ
  target_tempo : ℤ
deriving DecidableEq, Repr

/-- The values a returning call hands to its caller: the adjusted feature
record, the genres value, and the serialized query. -/
structure RecOutput where
  features : AudioFeatureProfile
  genres : JsLookup String
  query : RecQuery
deriving DecidableEq, Repr

/-- Everything a call to getRecommendationsByMoodAndAge does to and with
its inputs before the network request: outcome none models the TypeError
thrown at line 123 when the mood resolved to an inherited Object.prototype
member (features.valence is undefined there), and the table is the
MOOD_FEATURES state as the call leaves it. -/
structure RecResult where
  outcome : Option RecOutput
  table : MoodTable
deriving DecidableEq, Repr

/-- The resolver computation of getRecommendationsByMoodAndAge
(src/spotify.js lines 99-128), with the MOOD_FEATURES state threaded
explicitly. The token fetch and the two network calls surrounding it are
external collaborators and are not part of the resolver. When the mood
lookup lands on an inherited Object.prototype member, the adjustment loop
runs against that member (no feature key is its own property, so only the
line 112 floor branch can fire, writing NaN onto it, outside the table)
and line 123 then throws: outcome none, table unchanged. -/
def getRecommendationsByMoodAndAge (t : MoodTable) (moodKey : String)
    (ageGroupArg : Option String) : RecResult :=
  let ageGroup := ageGroupArg.getD "18-25"
  let moodLower := toLowerCase moodKey
  let lookedUp := t.lookup moodLower
  let features0 := lookedUp.getD (.own t.happy)
  let adjustments := jsKeys ((AGE_ADJUSTMENTS ageGroup).getD (.own []))
  let genres := (MOOD_GENRES moodLower).getD (.own "pop")
  match features0 with
  | .protoMember => { outcome := none, table := t }
  | .own b =>
      let features := adjustments.foldl (fun f kd => applyAdjustment f kd.1 kd.2) b
      let resolvedSlot := if lookedUp.isSome then moodLower else "happy"
      { outcome := some
          { features := features
            genres := genres
            query :=
              { seed_genres := genres
                limit := 8
                target_valence := toFixed2 features.valence
                target_energy := toFixed2 features.energy
                target_danceability := toFixed2 features.danceability
                target_acousticness := toFixed2 features.acousticness
                target_tempo := round features.tempo } }
        table := t.set resolvedSlot features }

/-- The value of the features variable right after line 104: the result
of the case-insensitive mood lookup, with the happy record standing in
for an undefined miss, read from the table at process start. -/
def baseProfile (moodKey : String) : JsLookup AudioFeatureProfile :=
  (MOOD_FEATURES.lookup (toLowerCase moodKey)).getD (.own MOOD_FEATURES.happy)

/-! ### General lemmas about the lookup tables -/

/-- A string outside both the own mood key set and the Object.prototype
member key set misses every branch of the MOOD_FEATURES lookup. -/
theorem lookup_eq_none_of_not_mem (t : MoodTable) (s : String)
    (h : s ∉ moodKeys) (hp : s ∉ objectPrototypeKeys) : t.lookup s = none := by
  simp only [moodKeys, List.mem_cons, List.not_mem_nil, or_false, not_or] at h
  obtain ⟨h1, h2, h3, h4, h5⟩ := h
  simp only [MoodTable.lookup, if_neg h1, if_neg h2, if_neg h3, if_neg h4, if_neg h5,
    if_neg hp]

/-- A string outside both key sets misses every branch of the MOOD_GENRES
lookup. -/
theorem genres_eq_none_of_not_mem (s : String)
    (h : s ∉ moodKeys) (hp : s ∉ objectPrototypeKeys) : MOOD_GENRES s = none := by
  simp only [moodKeys, List.mem_cons, List.not_mem_nil, or_false, not_or] at h
  obtain ⟨h1, h2, h3, h4, h5⟩ := h
  simp only [MOOD_GENRES, if_neg h1, if_neg h2, if_neg h3, if_neg h4, if_neg h5,
    if_neg hp]

/-- Indexing MOOD_FEATURES with an Object.prototype member key returns the
inherited member. -/
theorem lookup_eq_protoMember_of_mem (t : MoodTable) (s : String)
    (hp : s ∈ objectPrototypeKeys) : t.lookup s = some JsLookup.protoMember := by
  have h1 : ¬(s = "happy") := fun e => by subst e; exact absurd hp (by decide)
  have h2 : ¬(s = "energetic") := fun e => by subst e; exact absurd hp (by decide)
  have h3 : ¬(s = "calm") := fun e => by subst e; exact absurd hp (by decide)
  have h4 : ¬(s = "sad") := fun e => by subst e; exact absurd hp (by decide)
  have h5 : ¬(s = "stressed") := fun e => by subst e; exact absurd hp (by decide)
  simp only [MoodTable.lookup, if_neg h1, if_neg h2, if_neg h3, if_neg h4, if_neg h5,
    if_pos hp]

/-- A string that is an own mood key hits its own branch of the lookup. -/
theorem lookup_isOwn_of_mem (t : MoodTable) (s : String) (h : s ∈ moodKeys) :
    ∃ p, t.lookup s = some (JsLookup.own p) := by
  simp only [moodKeys, List.mem_cons, List.not_mem_nil, or_false] at h
  rcases h with e | e | e | e | e <;> subst e <;> exact ⟨_, rfl⟩

/-- A string outside both the bracket key set and the Object.prototype
member key set misses every branch of the AGE_ADJUSTMENTS lookup. -/
theorem adjustments_eq_none_of_not_mem (ag : String)
    (h : ag ∉ ageKeys) (hp : ag ∉ objectPrototypeKeys) : AGE_ADJUSTMENTS ag = none := by
  simp only [ageKeys, List.mem_cons, List.not_mem_nil, or_false, not_or] at h
  obtain ⟨h1, h2, h3, h4, h5⟩ := h
  simp only [AGE_ADJUSTMENTS, if_neg h1, if_neg h2, if_neg h3, if_neg h4, if_neg h5,
    if_neg hp]

/-- Indexing AGE_ADJUSTMENTS with an Object.prototype member key returns
the inherited member, not the empty-record fallback. -/
theorem adjustments_eq_protoMember_of_mem (ag : String)
    (hp : ag ∈ objectPrototypeKeys) : AGE_ADJUSTMENTS ag = some JsLookup.protoMember := by
  have h1 : ¬(ag = "13-17") := fun e => by subst e; exact absurd hp (by decide)
  have h2 : ¬(ag = "18-25") := fun e => by subst e; exact absurd hp (by decide)
  have h3 : ¬(ag = "26-35") := fun e => by subst e; exact absurd hp (by decide)
  have h4 : ¬(ag = "36-50") := fun e => by subst e; exact absurd hp (by decide)
  have h5 : ¬(ag = "50+") := fun e => by subst e; exact absurd hp (by decide)
  simp only [AGE_ADJUSTMENTS, if_neg h1, if_neg h2, if_neg h3, if_neg h4, if_neg h5,
    if_pos hp]

/-- For any age-group string outside the bracket key set the adjustment
loop iterates over nothing: an Object.prototype member key yields the
inherited member with no own enumerable keys, and any other unknown key
yields undefined and the empty-record fallback. -/
theorem jsKeys_eq_nil_of_not_mem_ageKeys (ag : String) (h : ag ∉ ageKeys) :
    jsKeys ((AGE_ADJUSTMENTS ag).getD (.own [])) = [] := by
  by_cases hp : ag ∈ objectPrototypeKeys
  · rw [adjustments_eq_protoMember_of_mem ag hp]
    rfl
  · rw [adjustments_eq_none_of_not_mem ag h hp]
    rfl

/-- A call throws (outcome none) exactly when the mood lookup lands on an
inherited Object.prototype member. -/
theorem outcome_eq_none_iff (t : MoodTable) (moodKey : String) (ageGroupArg : Option String) :
    (getRecommendationsByMoodAndAge t moodKey ageGroupArg).outcome = none
      ↔ t.lookup (toLowerCase moodKey) = some JsLookup.protoMember := by
  unfold getRecommendationsByMoodAndAge
  cases hl : t.lookup (toLowerCase moodKey) with
  | none => simp [hl]
  | some v =>
    cases v with
    | own p => simp [hl]
    | protoMember => simp [hl]

/-- The mood lookup lands on an inherited member exactly for the
Object.prototype member keys. -/
theorem lookup_protoMember_iff_mem (t : MoodTable) (s : String) :
    t.lookup s = some JsLookup.protoMember ↔ s ∈ objectPrototypeKeys := by
  constructor
  · intro h
    by_contra hp
    by_cases hm : s ∈ moodKeys
    · obtain ⟨p, e⟩ := lookup_isOwn_of_mem t s hm
      rw [e] at h
      exact JsLookup.noConfusion (Option.some.inj h)
    · rw [lookup_eq_none_of_not_mem t s hm hp] at h
      exact Option.noConfusion h
  · exact lookup_eq_protoMember_of_mem t s

/-- Running the adjustment loop on a feature record over any bracket whose
own adjustment record carries a tempo delta leaves the tempo equal to
mathMax 0 (mathMin 1 (tempo + delta)): the tempo key is owned by every
feature record, so it is handled by the bounded clamping branch of
line 110, never by the floor branch of line 112. -/
theorem foldl_tempo_of_mem (f : AudioFeatureProfile) (ag : String) (d : ℚ)
    (l : List (String × ℚ)) (hadj : AGE_ADJUSTMENTS ag = some (JsLookup.own l))
    (h : ("tempo", d) ∈ l) :
    (l.foldl (fun g kd => applyAdjustment g kd.1 kd.2) f).tempo
      = mathMax 0 (mathMin 1 (f.tempo + d)) := by
  by_cases e1 : ag = "13-17"
  · subst e1
    have e : AGE_ADJUSTMENTS "13-17"
        = some (.own [("danceability", 0.05), ("tempo", 10), ("energy", 0.03)]) := rfl
    rw [e] at hadj
    cases JsLookup.own.inj (Option.some.inj hadj)
    simp only [List.mem_cons, List.not_mem_nil, or_false] at h
    rcases h with h | h | h
    · have hk : "tempo" = "danceability" := congrArg Prod.fst h
      exact absurd hk (by decide)
    · have hd : d = 10 := congrArg Prod.snd h
      subst hd
      rfl
    · have hk : "tempo" = "energy" := congrArg Prod.fst h
      exact absurd hk (by decide)
  by_cases e2 : ag = "18-25"
  · subst e2
    have e : AGE_ADJUSTMENTS "18-25"
        = some (.own [("danceability", 0.02), ("tempo", 0), ("energy", 0)]) := rfl
    rw [e] at hadj
    cases JsLookup.own.inj (Option.some.inj hadj)
    simp only [List.mem_cons, List.not_mem_nil, or_false] at h
    rcases h with h | h | h
    · have hk : "tempo" = "danceability" := congrArg Prod.fst h
      exact absurd hk (by decide)
    · have hd : d = 0 := congrArg Prod.snd h
      subst hd
      rfl
    · have hk : "tempo" = "energy" := congrArg Prod.fst h
      exact absurd hk (by decide)
  by_cases e3 : ag = "26-35"
  · subst e3
    have e : AGE_ADJUSTMENTS "26-35"
        = some (.own [("acousticness", 0.03), ("tempo", -5)]) := rfl
    rw [e] at hadj
    cases JsLookup.own.inj (Option.some.inj hadj)
    simp only [List.mem_cons, List.not_mem_nil, or_false] at h
    rcases h with h | h
    · have hk : "tempo" = "acousticness" := congrArg Prod.fst h
      exact absurd hk (by decide)
    · have hd : d = -5 := congrArg Prod.snd h
      subst hd
      rfl
  by_cases e4 : ag = "36-50"
  · subst e4
    have e : AGE_ADJUSTMENTS "36-50"
        = some (.own [("acousticness", 0.05), ("tempo", -10), ("energy", -0.05)]) := rfl
    rw [e] at hadj
    cases JsLookup.own.inj (Option.some.inj hadj)
    simp only [List.mem_cons, List.not_mem_nil, or_false] at h
    rcases h with h | h | h
    · have hk : "tempo" = "acousticness" := congrArg Prod.fst h
      exact absurd hk (by decide)
    · have hd : d = -10 := congrArg Prod.snd h
      subst hd
      rfl
    · have hk : "tempo" = "energy" := congrArg Prod.fst h
      exact absurd hk (by decide)
  by_cases e5 : ag = "50+"
  · subst e5
    have e : AGE_ADJUSTMENTS "50+"
        = some (.own [("acousticness", 0.08), ("tempo", -15), ("energy", -0.1)]) := rfl
    rw [e] at hadj
    cases JsLookup.own.inj (Option.some.inj hadj)
    simp only [List.mem_cons, List.not_mem_nil, or_false] at h
    rcases h with h | h | h
    · have hk : "tempo" = "acousticness" := congrArg Prod.fst h
      exact absurd hk (by decide)
    · have hd : d = -15 := congrArg Prod.snd h
      subst hd
      rfl
    · have hk : "tempo" = "energy" := congrArg Prod.fst h
      exact absurd hk (by decide)
  have hag : ag ∉ ageKeys := by
    simp only [ageKeys, List.mem_cons, List.not_mem_nil, or_false, not_or]
    exact ⟨e1, e2, e3, e4, e5⟩
  by_cases hp : ag ∈ objectPrototypeKeys
  · rw [adjustments_eq_protoMember_of_mem ag hp] at hadj
    exact absurd (Option.some.inj hadj) (by simp)
  · rw [adjustments_eq_none_of_not_mem ag hag hp] at hadj
    exact Option.noConfusion hadj

/-- For an unrecognized age bracket the call returns the base lookup value
unadjusted whenever that value is a feature record, and throws exactly
when it is an inherited member. -/
theorem outcome_features_of_unrecognized_age (moodKey ag : String) (h : ag ∉ ageKeys) :
    (getRecommendationsByMoodAndAge MOOD_FEATURES moodKey (some ag)).outcome.map
        RecOutput.features
      = (baseProfile moodKey).ownValue := by
  have hk := jsKeys_eq_nil_of_not_mem_ageKeys ag h
  unfold getRecommendationsByMoodAndAge baseProfile
  simp only [Option.getD_some]
  rw [hk]
  cases hl : MOOD_FEATURES.lookup (toLowerCase moodKey) with
  | none => simp [JsLookup.ownValue]
  | some v =>
    cases v with
    | own p => simp [JsLookup.ownValue]
    | protoMember => simp [JsLookup.ownValue]

/-! ### Claims -/

attribute [local semireducible] Rat.add Rat.mul Rat.inv Rat.sub Rat.ofScientific in
/-- Claim C1. The claimed invariant that the resolved profile has its four
bounded fields in [0,1] and tempo at least 50 after the age adjustment
fails on the code: for mood sad and age group 13-17 the resolver returns
and leaves tempo equal to 1, because the base record owns a tempo key and
the adjustment loop therefore clamps tempo into [0,1] instead of flooring
it at 50. -/
theorem c1_adjusted_tempo_violates_floor :
    ((getRecommendationsByMoodAndAge MOOD_FEATURES "sad" (some "13-17")).outcome.map
        (fun r => r.features.tempo)) = some 1
    ∧ ((getRecommendationsByMoodAndAge MOOD_FEATURES "sad" (some "13-17")).outcome.map
        (fun r => decide (50 ≤ r.features.tempo))) = some false := by decide

attribute [local semireducible] Rat.add Rat.mul Rat.inv Rat.sub Rat.ofScientific in
/-- Claim C2. The claim that the resolved tempo equals the base tempo plus
the bracket delta floored at 50 fails on the code: for mood sad and age
group 13-17 that formula gives mathMax 50 (60 + 10) = 70, but the resolver
returns tempo 1, since the tempo key is captured by the [0,1] clamping
branch of the loop. -/
theorem c2_tempo_not_floored_at_50 :
    ((getRecommendationsByMoodAndAge MOOD_FEATURES "sad" (some "13-17")).outcome.map
        (fun r => r.features.tempo)) = some 1
    ∧ mathMax 50 (MOOD_FEATURES.sad.tempo + 10) = 70
    ∧ ((getRecommendationsByMoodAndAge MOOD_FEATURES "sad" (some "13-17")).outcome.map
        (fun r => r.features.tempo)) ≠ some (mathMax 50 (MOOD_FEATURES.sad.tempo + 10)) := by
  decide

attribute [local semireducible] Rat.add Rat.mul Rat.inv Rat.sub Rat.ofScientific in
/-- Claim C3. The claimed idempotence and freedom from side effects fail
on the code: the resolver mutates the MOOD_FEATURES entry it aliases, so a
first call with mood sad and age group 13-17 changes the table, and a
second call with the same inputs returns a different profile (energy 0.31
instead of 0.28, danceability 0.35 instead of 0.3). -/
theorem c3_resolver_mutates_and_is_not_idempotent :
    ((getRecommendationsByMoodAndAge
        ((getRecommendationsByMoodAndAge MOOD_FEATURES "sad" (some "13-17")).table)
        "sad" (some "13-17")).outcome.map RecOutput.features)
      ≠ ((getRecommendationsByMoodAndAge MOOD_FEATURES "sad" (some "13-17")).outcome.map
        RecOutput.features)
    ∧ (getRecommendationsByMoodAndAge MOOD_FEATURES "sad" (some "13-17")).table
        ≠ MOOD_FEATURES := by decide

attribute [local semireducible] Rat.add Rat.mul Rat.inv Rat.sub Rat.ofScientific in
/-- Claim C4, counterexample. Resolving the unrecognized mood furious does
not yield output identical to resolving happy: the feature profiles agree,
but the genre seed list is the literal fallback pop, not the happy genre
list, so the claimed identity of the full output is false. -/
theorem c4_counterexample_furious_output_differs_from_happy :
    ¬(((getRecommendationsByMoodAndAge MOOD_FEATURES "furious" (some "18-25")).outcome.map
          RecOutput.features)
        = ((getRecommendationsByMoodAndAge MOOD_FEATURES "happy" (some "18-25")).outcome.map
          RecOutput.features)
      ∧ ((getRecommendationsByMoodAndAge MOOD_FEATURES "furious" (some "18-25")).outcome.map
          RecOutput.genres)
        = ((getRecommendationsByMoodAndAge MOOD_FEATURES "happy" (some "18-25")).outcome.map
          RecOutput.genres)) := by decide

/-- Claim C4, amended. For a mood string whose lowercasing matches no own
mood key and no Object.prototype member key, the resolved feature profile
is identical to the one resolved for happy with the same age group, while
the genre seed list falls back to the literal string pop; a mood
lowercasing to an inherited member key instead makes the call throw. -/
theorem c4_unrecognized_mood_profile_from_happy_genres_pop
    (moodKey : String) (ageGroup : Option String)
    (h : toLowerCase moodKey ∉ moodKeys) (hp : toLowerCase moodKey ∉ objectPrototypeKeys) :
    ((getRecommendationsByMoodAndAge MOOD_FEATURES moodKey ageGroup).outcome.map
        RecOutput.features)
      = ((getRecommendationsByMoodAndAge MOOD_FEATURES "happy" ageGroup).outcome.map
        RecOutput.features)
    ∧ ((getRecommendationsByMoodAndAge MOOD_FEATURES moodKey ageGroup).outcome.map
        RecOutput.genres)
      = some (JsLookup.own "pop") := by
  have h1 := lookup_eq_none_of_not_mem MOOD_FEATURES (toLowerCase moodKey) h hp
  have h2 := genres_eq_none_of_not_mem (toLowerCase moodKey) h hp
  simp only [getRecommendationsByMoodAndAge, h1, h2]
  exact ⟨rfl, rfl⟩

/-- Claim C4, witness. -/
theorem c4_witness :
    toLowerCase "furious" ∉ moodKeys
    ∧ toLowerCase "furious" ∉ objectPrototypeKeys
    ∧ (((getRecommendationsByMoodAndAge MOOD_FEATURES "furious" (some "50+")).outcome.map
          RecOutput.features)
        = ((getRecommendationsByMoodAndAge MOOD_FEATURES "happy" (some "50+")).outcome.map
          RecOutput.features)
      ∧ ((getRecommendationsByMoodAndAge MOOD_FEATURES "furious" (some "50+")).outcome.map
          RecOutput.genres)
        = some (JsLookup.own "pop")) :=
  ⟨by decide, by decide,
   c4_unrecognized_mood_profile_from_happy_genres_pop "furious" (some "50+")
     (by decide) (by decide)⟩

attribute [local semireducible] Rat.add Rat.mul Rat.inv Rat.sub Rat.ofScientific in
/-- Claim C5, counterexample. An unrecognized age group is not treated
like 18-25: with mood happy, resolving with the unknown bracket 90+ skips
the adjustment (danceability 0.85, tempo 120) while resolving with 18-25
applies its adjustment (danceability 0.87, tempo clamped to 1), so the two
outputs differ. -/
theorem c5_counterexample_90plus_differs_from_18_25 :
    ((getRecommendationsByMoodAndAge MOOD_FEATURES "happy" (some "90+")).outcome.map
        RecOutput.features)
      ≠ ((getRecommendationsByMoodAndAge MOOD_FEATURES "happy" (some "18-25")).outcome.map
        RecOutput.features) := by decide

/-- Claim C5, amended. An absent age-group argument behaves exactly as the
explicit age group 18-25; an explicitly supplied but unrecognized age
group instead skips the adjustment step entirely, so the call returns the
unadjusted base lookup value whenever that value is a feature record (and
throws, returning nothing, when the mood lowercases to an inherited
Object.prototype member). -/
theorem c5_absent_age_defaults_unrecognized_age_skips (moodKey ag : String) :
    getRecommendationsByMoodAndAge MOOD_FEATURES moodKey none
      = getRecommendationsByMoodAndAge MOOD_FEATURES moodKey (some "18-25")
    ∧ (ag ∉ ageKeys →
        (getRecommendationsByMoodAndAge MOOD_FEATURES moodKey (some ag)).outcome.map
            RecOutput.features
          = (baseProfile moodKey).ownValue) :=
  ⟨rfl, fun h => outcome_features_of_unrecognized_age moodKey ag h⟩

/-- Claim C5, witness. -/
theorem c5_witness :
    "90+" ∉ ageKeys
    ∧ getRecommendationsByMoodAndAge MOOD_FEATURES "sad" none
        = getRecommendationsByMoodAndAge MOOD_FEATURES "sad" (some "18-25")
    ∧ (getRecommendationsByMoodAndAge MOOD_FEATURES "sad" (some "90+")).outcome.map
          RecOutput.features
        = (baseProfile "sad").ownValue :=
  ⟨by decide,
   (c5_absent_age_defaults_unrecognized_age_skips "sad" "90+").1,
   (c5_absent_age_defaults_unrecognized_age_skips "sad" "90+").2 (by decide)⟩

/-- Claim C6, counterexample. The claim fails at the mood string
constructor with the unrecognized age bracket 90+: the mood lookup returns
the inherited Object constructor rather than missing, the happy fallback
does not engage, and the call throws at serialization, so no resolved
profile exists, let alone one equal to the unadjusted base profile. -/
theorem c6_counterexample_constructor_mood_throws :
    (getRecommendationsByMoodAndAge MOOD_FEATURES "constructor" (some "90+")).outcome
      = none := by decide

/-- Claim C6, amended. For every mood string and every explicitly supplied
age group outside the known bracket set, the adjustment step is skipped
and the call hands back exactly the base lookup value: the unadjusted base
profile whenever that value is a feature record, and nothing (a thrown
TypeError) when the mood lowercases to an inherited Object.prototype
member key. -/
theorem c6_unrecognized_age_yields_unadjusted_base (moodKey ag : String)
    (h : ag ∉ ageKeys) :
    (getRecommendationsByMoodAndAge MOOD_FEATURES moodKey (some ag)).outcome.map
        RecOutput.features
      = (baseProfile moodKey).ownValue
    ∧ (toLowerCase moodKey ∈ objectPrototypeKeys →
        (getRecommendationsByMoodAndAge MOOD_FEATURES moodKey (some ag)).outcome = none) :=
  ⟨outcome_features_of_unrecognized_age moodKey ag h,
   fun hp => (outcome_eq_none_iff MOOD_FEATURES moodKey (some ag)).mpr
     (lookup_eq_protoMember_of_mem MOOD_FEATURES (toLowerCase moodKey) hp)⟩

/-- Claim C6, witness. -/
theorem c6_witness :
    "90+" ∉ ageKeys
    ∧ toLowerCase "CONSTRUCTOR" ∈ objectPrototypeKeys
    ∧ (getRecommendationsByMoodAndAge MOOD_FEATURES "CONSTRUCTOR" (some "90+")).outcome.map
          RecOutput.features
        = (baseProfile "CONSTRUCTOR").ownValue
    ∧ (getRecommendationsByMoodAndAge MOOD_FEATURES "CONSTRUCTOR" (some "90+")).outcome
        = none :=
  ⟨by decide, by decide,
   (c6_unrecognized_age_yields_unadjusted_base "CONSTRUCTOR" "90+" (by decide)).1,
   (c6_unrecognized_age_yields_unadjusted_base "CONSTRUCTOR" "90+" (by decide)).2 (by decide)⟩

attribute [local semireducible] Rat.add Rat.mul Rat.inv Rat.sub Rat.ofScientific in
/-- Claim C7. The concrete scenario mood sad, age 13-17 diverges from the
claim: the resolver returns energy 0.28, danceability 0.3, valence 0.2 and
acousticness 0.8 as claimed, and the genre list indie,alternative,folk,
but tempo is 1, not the claimed 70, because the tempo key is clamped into
[0,1] by the bounded branch of the adjustment loop. -/
theorem c7_sad_13_17_tempo_diverges :
    ((getRecommendationsByMoodAndAge MOOD_FEATURES "sad" (some "13-17")).outcome.map
        RecOutput.features)
      = some { valence := 0.2, energy := 0.28, danceability := 0.3,
               acousticness := 0.8, tempo := 1 }
    ∧ ((getRecommendationsByMoodAndAge MOOD_FEATURES "sad" (some "13-17")).outcome.map
        RecOutput.genres)
      = some (JsLookup.own "indie,alternative,folk")
    ∧ ((getRecommendationsByMoodAndAge MOOD_FEATURES "sad" (some "13-17")).outcome.map
        (fun r => r.features.tempo)) ≠ some 70 := by decide

/-- Claim C8, counterexample. For the mood string constructor no
serialized external representation exists: the mood lookup returns the
truthy inherited Object constructor, line 123 then throws TypeError on
features.valence.toFixed, and the call produces no query at all. -/
theorem c8_counterexample_constructor_mood_no_serialization :
    (getRecommendationsByMoodAndAge MOOD_FEATURES "constructor" (some "18-25")).outcome
      = none := by decide

/-- Claim C8, amended. Whenever the call returns, the serialized query
maps the genres value to seed_genres and the resolved profile to
target_valence, target_energy, target_danceability and target_acousticness
rounded to two decimal places by toFixed2, and to target_tempo rounded to
the nearest integer; and the call fails to return exactly when the
lowercased mood is an inherited Object.prototype member key. -/
theorem c8_query_parameter_serialization (moodKey : String) (ageGroup : Option String) :
    ((getRecommendationsByMoodAndAge MOOD_FEATURES moodKey ageGroup).outcome.map
        (fun r => (r.query.seed_genres, r.query.target_valence, r.query.target_energy,
          r.query.target_danceability, r.query.target_acousticness, r.query.target_tempo)))
      = ((getRecommendationsByMoodAndAge MOOD_FEATURES moodKey ageGroup).outcome.map
        (fun r => (r.genres, toFixed2 r.features.valence, toFixed2 r.features.energy,
          toFixed2 r.features.danceability, toFixed2 r.features.acousticness,
          round r.features.tempo)))
    ∧ ((getRecommendationsByMoodAndAge MOOD_FEATURES moodKey ageGroup).outcome = none
        ↔ toLowerCase moodKey ∈ objectPrototypeKeys) := by
  constructor
  · unfold getRecommendationsByMoodAndAge
    cases hl : MOOD_FEATURES.lookup (toLowerCase moodKey) with
    | none => simp [hl]
    | some v =>
      cases v with
      | own p => simp [hl]
      | protoMember => simp [hl]
  · rw [outcome_eq_none_iff]
    exact lookup_protoMember_iff_mem MOOD_FEATURES (toLowerCase moodKey)

/-- Claim C9. The claim that the resolver computation completes without
raising any error on every string input fails on the code: a mood string
whose lowercasing is a member key of Object.prototype makes the mood
lookup return the truthy inherited member, the happy fallback never
engages, and the call throws TypeError at line 123; both an uppercase
spelling reaching the key through toLowerCase and the __proto__ key are
exhibited. -/
theorem c9_resolver_throws_on_inherited_proto_key_mood :
    (getRecommendationsByMoodAndAge MOOD_FEATURES "CONSTRUCTOR" none).outcome = none
    ∧ (getRecommendationsByMoodAndAge MOOD_FEATURES "__proto__" (some "50+")).outcome
        = none := by decide

/-- Claim C10, counterexample. The claim fails at the mood string
constructor with age bracket 13-17: the looked-up value is the inherited
Object constructor, which owns no tempo key, so the hasOwnProperty branch
does not capture tempo there, the floor-at-50 branch of line 112 is the
one that runs (writing NaN onto the inherited object), and the call then
throws: no resolved tempo exists at all. -/
theorem c10_counterexample_constructor_floor_branch_runs :
    (getRecommendationsByMoodAndAge MOOD_FEATURES "constructor" (some "13-17")).outcome
      = none := by decide

/-- Claim C10, amended. Whenever the mood resolves to a feature record,
the record owns a tempo key, so the hasOwnProperty branch of the
adjustment loop captures the tempo key: for every age bracket whose own
adjustment record carries a tempo delta, the resolved tempo is
mathMax 0 (mathMin 1 (base tempo plus delta)) and the dedicated
floor-at-50 branch does not run. When the mood lowercases to an inherited
Object.prototype member instead, the aliased value owns no tempo key, the
floor branch is the one that fires (against the inherited object), and
the call throws, resolving no tempo: both sides of the stated equality
are then empty. -/
theorem c10_tempo_hits_unit_clamp_branch (moodKey ag : String) (d : ℚ)
    (l : List (String × ℚ)) (hadj : AGE_ADJUSTMENTS ag = some (JsLookup.own l))
    (h : ("tempo", d) ∈ l) :
    ((getRecommendationsByMoodAndAge MOOD_FEATURES moodKey (some ag)).outcome.map
        (fun r => r.features.tempo))
      = ((baseProfile moodKey).ownValue.map
        (fun b => mathMax 0 (mathMin 1 (b.tempo + d)))) := by
  unfold getRecommendationsByMoodAndAge baseProfile
  simp only [Option.getD_some]
  rw [hadj]
  cases hl : MOOD_FEATURES.lookup (toLowerCase moodKey) with
  | none =>
    simpa [JsLookup.ownValue, jsKeys] using
      foldl_tempo_of_mem MOOD_FEATURES.happy ag d l hadj h
  | some v =>
    cases v with
    | own p =>
      simpa [JsLookup.ownValue, jsKeys] using
        foldl_tempo_of_mem p ag d l hadj h
    | protoMember => simp [JsLookup.ownValue]

/-- Claim C10, witness. -/
theorem c10_witness :
    AGE_ADJUSTMENTS "13-17"
      = some (JsLookup.own [("danceability", 0.05), ("tempo", 10), ("energy", 0.03)])
    ∧ ("tempo", (10 : ℚ)) ∈ [("danceability", (0.05 : ℚ)), ("tempo", 10), ("energy", 0.03)]
    ∧ ((getRecommendationsByMoodAndAge MOOD_FEATURES "sad" (some "13-17")).outcome.map
          (fun r => r.features.tempo))
        = ((baseProfile "sad").ownValue.map
          (fun b => mathMax 0 (mathMin 1 (b.tempo + 10)))) :=
  ⟨rfl, by decide,
   c10_tempo_hits_unit_clamp_branch "sad" "13-17" 10
     [("danceability", 0.05), ("tempo", 10), ("energy", 0.03)] rfl (by decide)⟩
